import Mathlib

/-!
Verification of the destination-ranking core of the TPV broker
(`closest_location.py`).

Shallow embedding conventions:

* Python numbers (floats/ints used in statistics, requirements and
  histogram keys) are modelled as `ℚ`; the value `float('inf')` used as a
  sentinel for distances and matching scores is modelled as `⊤` in
  `WithTop ℚ`.
* Python dicts that are iterated in order are modelled as association
  lists; `dict.get` is `List.lookup` / an `Option` field.
* Histogram keys are numeric strings parsed with `int(...)` in the source;
  non-numeric keys are a caller-contract violation, so keys are modelled
  directly as `Int`.
* A Python function that can raise is modelled as returning
  `Except Unit _`; in particular `calculate_matching_score` evaluates
  `median_time > 0` where `median_time` defaults to `None`, and in
  Python 3 `None > 0` raises `TypeError`, modelled as `Except.error ()`.
* The haversine `distance` works on real-valued trigonometry and is
  embedded over `ℝ` below (`distance`).  The ranking pipeline only feeds
  its output into `min` and an ascending sort, so the pipeline is
  parameterised by an arbitrary rational-valued distance function
  `Dist`; every pipeline theorem holds for all such functions.
* The source mutates destination dicts by attaching `distance_to_data`
  and `matching_score`; only the returned identifier list is observable
  to the claims, so the embedding pairs each destination id with its
  key instead of mutating.
* Python `sorted` / `list.sort` are stable mergesorts; they are modelled
  with `List.mergeSort`, which is stable.  `list.sort(key=k, reverse=True)`
  is stable descending order, modelled by the total relation
  `fun a b => decide (k b ≤ k a)`.
-/

namespace TPVBroker

/-- Registry entry for one object store: its geographic coordinate. -/
structure ObjectStoreInfo where
  latitude : ℚ
  longitude : ℚ
deriving DecidableEq

/-- One input dataset's attributes; only `object_store_id` is consumed.
`none` models a missing/`None` id; the empty string is also falsy in
the source's `if value.object_store_id:` test. -/
structure DatasetAttribute where
  object_store_id : Option String
deriving DecidableEq

/-- One candidate destination record, with the fields read by the ranking
code.  Histograms are association lists `parsed key ↦ node count`
(a missing histogram key in the dict defaults to `{}`, i.e. `[]`).
The four statistics fields model `dict.get` results: the median times
default to `None` (`none`), the counts default to `1` when `none`. -/
structure Destination where
  destination_id : String
  dest_status : String
  latitude : ℚ
  longitude : ℚ
  dest_cpu_histogram : List (Int × Nat)
  dest_memory_histogram : List (Int × Nat)
  dest_tool_median_queue_time : Option ℚ
  dest_queue_count : Option ℚ
  dest_tool_median_run_time : Option ℚ
  dest_run_count : Option ℚ
deriving DecidableEq

/-- The job's resource ask: CPU cores, and memory in GB. -/
structure JobRequirements where
  cores : ℚ
  memory : ℚ

/-- The object-store registry dict `object_store_id ↦ info`. -/
abbrev ObjectStores := List (String × ObjectStoreInfo)

/-- The dataset-attribute dict's values, in iteration order. -/
abbrev DatasetAttributes := List DatasetAttribute

/-- Type of the geographic distance function
`dist lat1 lon1 lat2 lon2` the ranking pipeline is parameterised by. -/
abbrev Dist := ℚ → ℚ → ℚ → ℚ → ℚ

/-- The loop of `get_object_store`: collect `value.object_store_id` for
every dataset attribute whose id is truthy (present and non-empty). -/
def truthy_object_store_ids (dataset_attributes : DatasetAttributes) : List String :=
  dataset_attributes.filterMap fun value =>
    match value.object_store_id with
    | some s => if s = "" then none else some s
    | none => none

/-- `get_object_store` (src/closest_location.py lines 10-20): collect the
truthy ids, then collapse to the first element when the id set
(`set(object_store)`) has exactly one element. -/
def get_object_store (dataset_attributes : DatasetAttributes) : List String :=
  let object_store := truthy_object_store_ids dataset_attributes
  if object_store.dedup.length = 1 then
    match object_store with
    | x :: _ => [x]
    | [] => []          -- unreachable: a one-element id set forces a non-empty list
  else
    object_store

/-- `closest_destination` (lines 23-43): minimum distance from the
destination to any resolved object store present in the registry;
`float('inf')` (here `⊤`) when there is none. -/
def closest_destination (dist : Dist) (destination : Destination)
    (objectstores : ObjectStores) (dataset_attributes : DatasetAttributes) :
    WithTop ℚ :=
  let object_store := get_object_store dataset_attributes
  if object_store.isEmpty then
    ⊤
  else
    object_store.foldl
      (fun min_distance object_store_id =>
        match objectstores.lookup object_store_id with
        | some info =>
            min min_distance
              ((dist info.latitude info.longitude destination.latitude destination.longitude : ℚ) :
                WithTop ℚ)
        | none => min_distance)
      ⊤

/-- `calculate_matching_score` (lines 46-68).  The median fields default
to `None`; comparing `None > 0` raises `TypeError` in Python 3, modelled
as `Except.error ()`.  When a median is numeric, a non-positive median
or count makes the corresponding factor `float('inf')` (`⊤`). -/
def calculate_matching_score (destination : Destination) : Except Unit (WithTop ℚ) :=
  let queue_size := destination.dest_queue_count.getD 1
  let running_jobs := destination.dest_run_count.getD 1
  match destination.dest_tool_median_queue_time with
  | none => Except.error ()
  | some median_waiting_time =>
    let qm : WithTop ℚ :=
      if 0 < median_waiting_time ∧ 0 < queue_size then
        ((1 / (median_waiting_time * queue_size) : ℚ) : WithTop ℚ)
      else ⊤
    match destination.dest_tool_median_run_time with
    | none => Except.error ()
    | some median_running_time =>
      let cm : WithTop ℚ :=
        if 0 < median_running_time ∧ 0 < running_jobs then
          ((1 / (median_running_time * running_jobs) : ℚ) : WithTop ℚ)
        else ⊤
      Except.ok (qm + cm)

/-- `required >= key` check of the histogram loops (lines 88-100): does
some bucket key (a per-node free-resource amount) reach the requirement?
The loop breaks at the first hit and never reads the node counts. -/
def has_sufficient_resources (histogram : List (Int × Nat)) (required : ℚ) : Bool :=
  histogram.any fun kv => decide (required ≤ (kv.1 : ℚ))

/-- The feasibility predicate of the filter loop (lines 81-103): status
`online`, some CPU bucket key ≥ required cores, and some memory bucket
key ≥ required memory in MB (`memory * 1024`, GB → MB). -/
def is_viable (job_requirements : JobRequirements) (dest : Destination) : Bool :=
  dest.dest_status == "online"
    && has_sufficient_resources dest.dest_cpu_histogram job_requirements.cores
    && has_sufficient_resources dest.dest_memory_histogram (job_requirements.memory * 1024)

/-- The score loop over the viable destinations (lines 120-121): pair
each destination id with its matching score, stopping with the
`TypeError` of the first failing `calculate_matching_score` call. -/
def with_scores : List Destination → Except Unit (List (WithTop ℚ × String))
  | [] => Except.ok []
  | dest :: rest =>
    match calculate_matching_score dest with
    | Except.error e => Except.error e
    | Except.ok s =>
      match with_scores rest with
      | Except.error e => Except.error e
      | Except.ok tail => Except.ok ((s, dest.destination_id) :: tail)

/-- `get_sorted_destinations` (lines 71-133).  Viable destinations are
ranked by stable descending matching score; when none is viable, all
online destinations are ranked by stable ascending distance to data.
(The `distance_to_data` written onto viable records on line 105 does not
influence the returned list and is therefore not materialised.) -/
def get_sorted_destinations (dist : Dist) (job_requirements : JobRequirements)
    (destinations : List Destination) (objectstores : ObjectStores)
    (dataset_attributes : DatasetAttributes) : Except Unit (List String) :=
  let viable_destinations := destinations.filter (is_viable job_requirements)
  if viable_destinations.isEmpty then
    let online_destinations := destinations.filter fun dest => dest.dest_status == "online"
    let with_distances := online_destinations.map fun dest =>
      (closest_destination dist dest objectstores dataset_attributes, dest.destination_id)
    let sorted_destinations := with_distances.mergeSort fun a b => decide (a.1 ≤ b.1)
    Except.ok (sorted_destinations.map Prod.snd)
  else
    match with_scores viable_destinations with
    | Except.error e => Except.error e
    | Except.ok scored =>
      Except.ok ((scored.mergeSort fun a b => decide (b.1 ≤ a.1)).map Prod.snd)

/-- The haversine `distance` (lines 4-7), embedded over `ℝ`:
`12742 * asin(sqrt(hav))` with the magic degree-to-radian factor `p`. -/
noncomputable def distance (lat1 lon1 lat2 lon2 : ℝ) : ℝ :=
  let p : ℝ := 0.017453292519943295
  let hav : ℝ := 0.5 - Real.cos ((lat2 - lat1) * p) / 2
    + Real.cos (lat1 * p) * Real.cos (lat2 * p) * (1 - Real.cos ((lon2 - lon1) * p)) / 2
  12742 * Real.arcsin (Real.sqrt hav)

/-- Spec-side formulation of the queue factor, from §4.4 of the spec:
`1 / (median_waiting_time * queue_size)` when both are positive, else
`+infinity`. -/
def qm_spec (median_waiting_time queue_size : ℚ) : WithTop ℚ :=
  if 0 < median_waiting_time ∧ 0 < queue_size then
    ((1 / (median_waiting_time * queue_size) : ℚ) : WithTop ℚ)
  else ⊤

/-- Spec-side formulation of the compute factor, from §4.4 of the spec. -/
def cm_spec (median_running_time running_jobs : ℚ) : WithTop ℚ :=
  if 0 < median_running_time ∧ 0 < running_jobs then
    ((1 / (median_running_time * running_jobs) : ℚ) : WithTop ℚ)
  else ⊤

/-- Spec-side formulation of the proximity scorer's candidate distances
(§4.3): the distance to each resolved object store that is present in
the registry, absent ids silently skipped. -/
def present_store_distances (dist : Dist) (destination : Destination)
    (objectstores : ObjectStores) (dataset_attributes : DatasetAttributes) : List ℚ :=
  (get_object_store dataset_attributes).filterMap fun object_store_id =>
    (objectstores.lookup object_store_id).map fun info =>
      dist info.latitude info.longitude destination.latitude destination.longitude

/-! Concrete records used to instantiate the theorems. -/

/-- A concrete distance function for test instances. -/
def dist_zero : Dist := fun _ _ _ _ => 0

/-- A job asking for 1 core and 1 GB of memory. -/
def jr_example : JobRequirements := { cores := 1, memory := 1 }

/-- A job asking for 8 cores and 1 GB of memory. -/
def jr_eight_cores : JobRequirements := { cores := 8, memory := 1 }

/-- Online destination with the spec's worked statistics example:
median queue time 2, queue count 5, median run time 10, run count 2. -/
def dest_finite_stats : Destination :=
  { destination_id := "d1", dest_status := "online", latitude := 0, longitude := 0,
    dest_cpu_histogram := [(4, 1)], dest_memory_histogram := [(4096, 1)],
    dest_tool_median_queue_time := some 2, dest_queue_count := some 5,
    dest_tool_median_run_time := some 10, dest_run_count := some 2 }

/-- Online destination with both statistics dict entries missing, so both
medians default to `None`. -/
def dest_missing_stats : Destination :=
  { destination_id := "d2", dest_status := "online", latitude := 0, longitude := 0,
    dest_cpu_histogram := [(4, 1)], dest_memory_histogram := [(4096, 1)],
    dest_tool_median_queue_time := none, dest_queue_count := none,
    dest_tool_median_run_time := none, dest_run_count := none }

/-- Online destination whose median times are present but zero. -/
def dest_zero_medians : Destination :=
  { destination_id := "d3", dest_status := "online", latitude := 0, longitude := 0,
    dest_cpu_histogram := [(4, 1)], dest_memory_histogram := [(4096, 1)],
    dest_tool_median_queue_time := some 0, dest_queue_count := none,
    dest_tool_median_run_time := some 0, dest_run_count := none }

/-- Online destination whose largest CPU bucket key is 1, infeasible for
an 8-core job. -/
def dest_infeasible : Destination :=
  { destination_id := "d4", dest_status := "online", latitude := 0, longitude := 0,
    dest_cpu_histogram := [(1, 1)], dest_memory_histogram := [(4096, 1)],
    dest_tool_median_queue_time := none, dest_queue_count := none,
    dest_tool_median_run_time := none, dest_run_count := none }

/-- Dataset attributes referencing two distinct stores, one of them twice. -/
def das_two_stores : DatasetAttributes :=
  [⟨some "A"⟩, ⟨some "A"⟩, ⟨some "B"⟩]

/-- Dataset attributes all referencing the single store `S1`. -/
def das_single_store : DatasetAttributes :=
  [⟨some "S1"⟩, ⟨some "S1"⟩]

/-! ## Helper lemmas -/

/-- A non-empty list whose elements are all equal dedups to a singleton. -/
theorem dedup_eq_single_of_all_eq :
    ∀ {l : List String} {s : String}, l ≠ [] → (∀ x ∈ l, x = s) → l.dedup = [s]
  | [], _, hne, _ => absurd rfl hne
  | a :: t, s, _, hall => by
    have ha : a = s := hall a (List.mem_cons_self a t)
    cases t with
    | nil => rw [List.dedup_cons_of_not_mem (List.not_mem_nil a), List.dedup_nil, ha]
    | cons b t2 =>
      have ht : (b :: t2).dedup = [s] :=
        dedup_eq_single_of_all_eq (List.cons_ne_nil b t2)
          (fun x hx => hall x (List.mem_cons_of_mem a hx))
      have hmem : a ∈ b :: t2 := by
        have hb : b = s := hall b (List.mem_cons_of_mem a (List.mem_cons_self b t2))
        rw [ha, ← hb]
        exact List.mem_cons_self b t2
      rw [List.dedup_cons_of_mem hmem, ht]

/-- Successful `with_scores` relates inputs and outputs elementwise. -/
theorem with_scores_ok_forall₂ :
    ∀ {l : List Destination} {out : List (WithTop ℚ × String)},
      with_scores l = Except.ok out →
      List.Forall₂
        (fun d p => calculate_matching_score d = Except.ok p.1 ∧ p.2 = d.destination_id)
        l out
  | [], out, h => by
    simp only [with_scores, Except.ok.injEq] at h
    rw [← h]
    exact List.Forall₂.nil
  | d :: rest, out, h => by
    simp only [with_scores] at h
    cases hs : calculate_matching_score d with
    | error e => rw [hs] at h; cases h
    | ok s =>
      rw [hs] at h
      cases ht : with_scores rest with
      | error e => rw [ht] at h; cases h
      | ok tail =>
        rw [ht] at h
        cases h
        exact List.Forall₂.cons ⟨hs, rfl⟩ (with_scores_ok_forall₂ ht)

/-- Right-membership projection of `Forall₂`. -/
theorem forall₂_mem_right {α β : Type} {R : α → β → Prop} {l : List α} {out : List β}
    (h : List.Forall₂ R l out) : ∀ p ∈ out, ∃ d ∈ l, R d p := by
  induction h with
  | nil => intro p hp; cases hp
  | cons hR _ ih =>
    intro p hp
    rcases List.mem_cons.mp hp with rfl | hp2
    · exact ⟨_, List.mem_cons_self _ _, hR⟩
    · obtain ⟨d, hd, hdr⟩ := ih p hp2
      exact ⟨d, List.mem_cons_of_mem _ hd, hdr⟩

/-- The skipping fold of `closest_destination` computes the minimum of
the distances to the registry-resolvable stores. -/
theorem closest_foldl_min (dist : Dist) (destination : Destination)
    (objectstores : ObjectStores) :
    ∀ (ids : List String) (acc : WithTop ℚ),
      ids.foldl
        (fun min_distance object_store_id =>
          match objectstores.lookup object_store_id with
          | some info =>
              min min_distance
                ((dist info.latitude info.longitude destination.latitude destination.longitude : ℚ) :
                  WithTop ℚ)
          | none => min_distance)
        acc
      = min acc
          (ids.filterMap fun object_store_id =>
            (objectstores.lookup object_store_id).map fun info =>
              dist info.latitude info.longitude destination.latitude destination.longitude).minimum
  | [], acc => by
    rw [List.foldl_nil, List.filterMap_nil, List.minimum_nil]
    exact (min_eq_left le_top).symm
  | id :: ids, acc => by
    rw [List.foldl_cons, List.filterMap_cons]
    cases hl : objectstores.lookup id with
    | none =>
      simp only [hl, Option.map_none']
      exact closest_foldl_min dist destination objectstores ids acc
    | some info =>
      simp only [hl, Option.map_some']
      rw [closest_foldl_min dist destination objectstores ids
        (min acc ((dist info.latitude info.longitude destination.latitude destination.longitude : ℚ) : WithTop ℚ))]
      rw [List.minimum_cons, min_assoc]

/-- `closest_destination` equals the minimum of the spec-side distance
list (`⊤` when that list is empty). -/
theorem closest_destination_minimum_aux (dist : Dist) (d : Destination)
    (oss : ObjectStores) (das : DatasetAttributes) :
    closest_destination dist d oss das = (present_store_distances dist d oss das).minimum := by
  rw [closest_destination, present_store_distances]
  cases hl : get_object_store das with
  | nil =>
    rw [List.filterMap_nil, List.minimum_nil]
    rfl
  | cons x t =>
    rw [show (x :: t).isEmpty = false from rfl]
    rw [if_neg (by simp)]
    rw [closest_foldl_min dist d oss (x :: t) ⊤]
    exact min_eq_right le_top

/-- Zeta-reduced form of `get_object_store`. -/
theorem get_object_store_eq (das : DatasetAttributes) :
    get_object_store das =
      if (truthy_object_store_ids das).dedup.length = 1 then
        match truthy_object_store_ids das with
        | x :: _ => [x]
        | [] => []
      else truthy_object_store_ids das := rfl

/-- The descending score comparison is transitive. -/
theorem score_desc_trans (a b c : WithTop ℚ × String)
    (hab : decide (b.1 ≤ a.1) = true) (hbc : decide (c.1 ≤ b.1) = true) :
    decide (c.1 ≤ a.1) = true := by
  simp only [decide_eq_true_eq] at *
  exact le_trans hbc hab

/-- The descending score comparison is total. -/
theorem score_desc_total (a b : WithTop ℚ × String) :
    (decide (b.1 ≤ a.1) || decide (a.1 ≤ b.1)) = true := by
  simp only [Bool.or_eq_true, decide_eq_true_eq]
  exact le_total b.1 a.1

/-- The ascending distance comparison is transitive. -/
theorem dist_asc_trans (a b c : WithTop ℚ × String)
    (hab : decide (a.1 ≤ b.1) = true) (hbc : decide (b.1 ≤ c.1) = true) :
    decide (a.1 ≤ c.1) = true := by
  simp only [decide_eq_true_eq] at *
  exact le_trans hab hbc

/-- The ascending distance comparison is total. -/
theorem dist_asc_total (a b : WithTop ℚ × String) :
    (decide (a.1 ≤ b.1) || decide (b.1 ≤ a.1)) = true := by
  simp only [Bool.or_eq_true, decide_eq_true_eq]
  exact le_total a.1 b.1

/-- A viable destination is online. -/
theorem is_viable_status {jr : JobRequirements} {d : Destination}
    (h : is_viable jr d = true) : d.dest_status = "online" := by
  simp only [is_viable, Bool.and_eq_true, beq_iff_eq] at h
  exact h.1.1

/-- When no dataset resolves an object store, or none of the resolved
ids is present in the registry, the distance is `⊤`. -/
theorem closest_destination_top_of_unresolvable (dist : Dist) (d : Destination)
    (oss : ObjectStores) (das : DatasetAttributes)
    (h : get_object_store das = [] ∨ ∀ id ∈ get_object_store das, oss.lookup id = none) :
    closest_destination dist d oss das = ⊤ := by
  rw [closest_destination_minimum_aux dist d oss das]
  have hnil : present_store_distances dist d oss das = [] := by
    rw [present_store_distances]
    rcases h with h | h
    · rw [h, List.filterMap_nil]
    · rw [List.filterMap_eq_nil_iff]
      intro a ha
      rw [h a ha, Option.map_none']
  rw [hnil, List.minimum_nil]

/-! ## Claim theorems -/

/-- C1 counterexample: on a destination whose statistics dict lacks
`dest_tool_median_queue_time` (and `dest_tool_median_run_time`), the
source evaluates `None > 0`, which raises `TypeError` in Python 3, so
`calculate_matching_score` does not return a value with `qm = +infinity`
as the claim states. -/
theorem matching_score_raises_on_missing_median :
    calculate_matching_score dest_missing_stats = Except.error () := rfl

/-- C1 amended: `calculate_matching_score` returns a value exactly when
both median-time fields are present; a present value that is zero or
negative degrades to an infinite factor, but an absent (`None`) median
raises instead of degrading. -/
theorem matching_score_ok_iff_medians_present (d : Destination) :
    (∃ v, calculate_matching_score d = Except.ok v) ↔
      (d.dest_tool_median_queue_time.isSome ∧ d.dest_tool_median_run_time.isSome) := by
  cases hq : d.dest_tool_median_queue_time with
  | none => simp [calculate_matching_score, hq]
  | some m =>
    cases hr : d.dest_tool_median_run_time with
    | none => simp [calculate_matching_score, hq, hr]
    | some r => simp [calculate_matching_score, hq, hr]

/-- C1 amended, instantiated: with both medians present the score call
succeeds. -/
theorem matching_score_ok_iff_medians_present_witness :
    ∃ v, calculate_matching_score dest_finite_stats = Except.ok v :=
  (matching_score_ok_iff_medians_present dest_finite_stats).mpr ⟨rfl, rfl⟩

/-- C2 counterexample: with dataset attributes `[A, A, B]` the returned
sequence is `[A, A, B]`, which contains a duplicate identifier, so
`get_object_store` does not return the distinct ids in general. -/
theorem get_object_store_keeps_duplicates :
    get_object_store das_two_stores = ["A", "A", "B"] ∧
    ¬ (get_object_store das_two_stores).Nodup := by
  refine ⟨rfl, ?_⟩
  decide

/-- C2 amended: `get_object_store` returns the non-empty
`object_store_id` values in input order; it collapses to a one-element
sequence when exactly one distinct id occurs, returns the empty sequence
when no dataset carries an id, and otherwise returns the raw sequence
unchanged — duplicates are not removed when two or more distinct ids
occur, though the set of distinct ids is always preserved. -/
theorem get_object_store_characterized (das : DatasetAttributes) :
    (get_object_store das).dedup = (truthy_object_store_ids das).dedup ∧
    (truthy_object_store_ids das = [] → get_object_store das = []) ∧
    (∀ s, truthy_object_store_ids das ≠ [] →
      (∀ x ∈ truthy_object_store_ids das, x = s) → get_object_store das = [s]) ∧
    ((truthy_object_store_ids das).dedup.length ≠ 1 →
      get_object_store das = truthy_object_store_ids das) := by
  refine ⟨?_, ?_, ?_, ?_⟩
  · rw [get_object_store_eq]
    by_cases hlen : (truthy_object_store_ids das).dedup.length = 1
    · rw [if_pos hlen]
      obtain ⟨y, hy⟩ := List.length_eq_one.mp hlen
      cases hraw : truthy_object_store_ids das with
      | nil => rw [hraw, List.dedup_nil] at hy
      | cons x t =>
        rw [hraw] at hy
        have hx : x ∈ (x :: t).dedup := List.mem_dedup.mpr (List.mem_cons_self x t)
        rw [hy] at hx
        have hxy : x = y := List.mem_singleton.mp hx
        show [x].dedup = (x :: t).dedup
        rw [hy, List.dedup_cons_of_not_mem (List.not_mem_nil x), List.dedup_nil, hxy]
    · rw [if_neg hlen]
  · intro h
    rw [get_object_store_eq, h]
    rfl
  · intro s hne hall
    have hd : (truthy_object_store_ids das).dedup = [s] :=
      dedup_eq_single_of_all_eq hne hall
    rw [get_object_store_eq]
    cases hraw : truthy_object_store_ids das with
    | nil => exact absurd hraw hne
    | cons x t =>
      have hx : x = s := hall x (by rw [hraw]; exact List.mem_cons_self x t)
      rw [hraw] at hd
      rw [hd]
      simp [hx]
  · intro h
    rw [get_object_store_eq, if_neg h]

/-- C2 amended, instantiated: all datasets on the single store `S1`
collapse to `[S1]`. -/
theorem get_object_store_characterized_witness :
    get_object_store das_single_store = ["S1"] :=
  (get_object_store_characterized das_single_store).2.2.1 "S1" (by decide) (by decide)

/-- C7: with all four statistics fields present, the score is exactly
`qm + cm` with the spec's factor formulas; the spec's worked example
`median_queue_time=2, queue_count=5, median_run_time=10, run_count=2`
yields `0.15 = 3/20`, and zero median times yield `+infinity`. -/
theorem matching_score_formula :
    (∀ (d : Destination) (m q r c : ℚ),
      d.dest_tool_median_queue_time = some m → d.dest_queue_count = some q →
      d.dest_tool_median_run_time = some r → d.dest_run_count = some c →
      calculate_matching_score d = Except.ok (qm_spec m q + cm_spec r c)) ∧
    calculate_matching_score dest_finite_stats = Except.ok ((3 / 20 : ℚ) : WithTop ℚ) ∧
    calculate_matching_score dest_zero_medians = Except.ok ⊤ := by
  refine ⟨?_, ?_, rfl⟩
  · intro d m q r c hm hq hr hc
    simp only [calculate_matching_score, hm, hq, hr, hc]
    rfl
  · norm_num [calculate_matching_score, dest_finite_stats]
    rw [← WithTop.coe_add]
    norm_num

/-- C7, instantiated on the spec's worked example. -/
theorem matching_score_formula_witness :
    calculate_matching_score dest_finite_stats =
      Except.ok (qm_spec 2 5 + cm_spec 10 2) :=
  matching_score_formula.1 dest_finite_stats 2 5 10 2 rfl rfl rfl rfl

/-- C8: `closest_destination` is the minimum of the distances to the
resolved object stores present in the registry (ids absent from the
registry are skipped and contribute nothing), and it is `+infinity`
(`⊤`) when no id resolves or none is present in the registry. -/
theorem closest_destination_min_resolved (dist : Dist) (d : Destination)
    (oss : ObjectStores) (das : DatasetAttributes) :
    closest_destination dist d oss das = (present_store_distances dist d oss das).minimum ∧
    ((get_object_store das = [] ∨ ∀ id ∈ get_object_store das, oss.lookup id = none) →
      closest_destination dist d oss das = ⊤) :=
  ⟨closest_destination_minimum_aux dist d oss das,
   closest_destination_top_of_unresolvable dist d oss das⟩

/-- C8, instantiated: with no dataset attributes at all the distance is
`+infinity`. -/
theorem closest_destination_min_resolved_witness :
    closest_destination dist_zero dest_infeasible [] [] = ⊤ :=
  (closest_destination_min_resolved dist_zero dest_infeasible [] []).2 (Or.inl rfl)

/-- C3: a destination enters the feasible set exactly when it is online,
some CPU bucket key reaches the required cores, and some memory bucket
key reaches the required MB (`memory * 1024`); the two histogram checks
are independent and consult only the bucket keys (`Prod.fst`), never the
node counts. -/
theorem feasible_set_membership (jr : JobRequirements) (dests : List Destination)
    (d : Destination) :
    d ∈ dests.filter (is_viable jr) ↔
      (d ∈ dests ∧ d.dest_status = "online" ∧
       (∃ k ∈ d.dest_cpu_histogram.map Prod.fst, jr.cores ≤ (k : ℚ)) ∧
       (∃ k ∈ d.dest_memory_histogram.map Prod.fst, jr.memory * 1024 ≤ (k : ℚ))) := by
  simp only [List.mem_filter, is_viable, has_sufficient_resources, Bool.and_eq_true,
    beq_iff_eq, List.any_eq_true, decide_eq_true_eq, List.mem_map]
  constructor
  · rintro ⟨hmem, ⟨⟨hstat, kv1, h1, hle1⟩, kv2, h2, hle2⟩⟩
    exact ⟨hmem, hstat, ⟨kv1.1, ⟨kv1, h1, rfl⟩, hle1⟩, ⟨kv2.1, ⟨kv2, h2, rfl⟩, hle2⟩⟩
  · rintro ⟨hmem, hstat, ⟨k1, ⟨kv1, h1, hk1⟩, hle1⟩, ⟨k2, ⟨kv2, h2, hk2⟩, hle2⟩⟩
    exact ⟨hmem, ⟨⟨hstat, kv1, h1, hk1 ▸ hle1⟩, kv2, h2, hk2 ▸ hle2⟩⟩

/-- C3, instantiated: an online destination with CPU bucket 4 and memory
bucket 4096 is feasible for a 1-core, 1-GB job. -/
theorem feasible_set_membership_witness :
    dest_zero_medians ∈ List.filter (is_viable jr_example) [dest_zero_medians] :=
  (feasible_set_membership jr_example [dest_zero_medians] dest_zero_medians).mpr
    ⟨List.mem_singleton.mpr rfl, rfl,
     ⟨4, by simp [dest_zero_medians], by norm_num [jr_example]⟩,
     ⟨4096, by simp [dest_zero_medians], by norm_num [jr_example]⟩⟩

/-- C4 counterexample: a destination can be feasible (online, large
enough buckets) while its median statistics are absent; the primary
branch then calls `calculate_matching_score`, which raises, so the
ranker returns no identifier list at all. -/
theorem primary_branch_error_on_missing_stats :
    get_sorted_destinations dist_zero jr_example [dest_missing_stats] [] [] =
      Except.error () := by
  have hfil : List.filter (is_viable jr_example) [dest_missing_stats] =
      [dest_missing_stats] := by
    norm_num [List.filter, is_viable, has_sufficient_resources, dest_missing_stats,
      jr_example]
  simp only [get_sorted_destinations, hfil]
  rfl

/-- C4 amended: when some destination is feasible and every feasible
destination's matching score computes (both median statistics present;
otherwise the call raises as in C1), the output is exactly the feasible
destinations' identifiers, stably sorted by descending matching score:
the returned key/id list is a permutation of the scored feasible list,
pairwise descending, ties keep their original relative order (every tied
sublist survives as a sublist), and every returned id belongs to a
feasible input destination. -/
theorem primary_branch_sorted_by_score
    (dist : Dist) (jr : JobRequirements) (dests : List Destination)
    (oss : ObjectStores) (das : DatasetAttributes)
    (scored : List (WithTop ℚ × String))
    (h1 : dests.filter (is_viable jr) ≠ [])
    (h2 : with_scores (dests.filter (is_viable jr)) = Except.ok scored) :
    ∃ l : List (WithTop ℚ × String),
      get_sorted_destinations dist jr dests oss das = Except.ok (l.map Prod.snd) ∧
      l.Perm scored ∧
      l.Pairwise (fun a b => b.1 ≤ a.1) ∧
      (∀ c : List (WithTop ℚ × String),
        c.Sublist scored → c.Pairwise (fun a b => a.1 = b.1) → c.Sublist l) ∧
      (∀ s ∈ l.map Prod.snd,
        ∃ d, d ∈ dests ∧ is_viable jr d = true ∧ d.destination_id = s) := by
  have hne : (dests.filter (is_viable jr)).isEmpty = false := by
    rw [List.isEmpty_eq_false]
    exact h1
  refine ⟨scored.mergeSort fun a b => decide (b.1 ≤ a.1), ?_,
    List.mergeSort_perm scored _, ?_, ?_, ?_⟩
  · simp [get_sorted_destinations, hne, h2]
  · exact (List.sorted_mergeSort score_desc_trans score_desc_total scored).imp
      fun h => of_decide_eq_true h
  · intro c hsub hpw
    exact List.sublist_mergeSort score_desc_trans score_desc_total
      (hpw.imp fun h => decide_eq_true (le_of_eq h.symm)) hsub
  · intro s hs
    rw [List.mem_map] at hs
    obtain ⟨p, hp, rfl⟩ := hs
    rw [List.mem_mergeSort] at hp
    obtain ⟨d, hd, hR⟩ := forall₂_mem_right (with_scores_ok_forall₂ h2) p hp
    rw [List.mem_filter] at hd
    exact ⟨d, hd.1, hd.2, hR.2.symm⟩

/-- C4, instantiated on a single viable destination. -/
theorem primary_branch_sorted_by_score_witness :
    ∃ l : List (WithTop ℚ × String),
      get_sorted_destinations dist_zero jr_example [dest_zero_medians] [] [] =
        Except.ok (l.map Prod.snd) ∧
      l.Perm [(⊤, "d3")] ∧
      l.Pairwise (fun a b => b.1 ≤ a.1) ∧
      (∀ c : List (WithTop ℚ × String),
        c.Sublist [(⊤, "d3")] → c.Pairwise (fun a b => a.1 = b.1) → c.Sublist l) ∧
      (∀ s ∈ l.map Prod.snd,
        ∃ d, d ∈ [dest_zero_medians] ∧ is_viable jr_example d = true ∧
          d.destination_id = s) :=
  primary_branch_sorted_by_score dist_zero jr_example [dest_zero_medians] [] []
    [(⊤, "d3")]
    (by
      rw [show List.filter (is_viable jr_example) [dest_zero_medians] = [dest_zero_medians]
        from by norm_num [List.filter, is_viable, has_sufficient_resources,
          dest_zero_medians, jr_example]]
      exact List.cons_ne_nil _ _)
    (by
      rw [show List.filter (is_viable jr_example) [dest_zero_medians] = [dest_zero_medians]
        from by norm_num [List.filter, is_viable, has_sufficient_resources,
          dest_zero_medians, jr_example]]
      rfl)

/-- C5: when no destination is feasible, the output is exactly the online
destinations' identifiers sorted ascending by their distance to data:
the returned key/id list is a permutation of the online destinations
annotated with `closest_destination`, pairwise ascending; with no online
destination the result is the empty sequence. -/
theorem fallback_branch_sorted_by_distance
    (dist : Dist) (jr : JobRequirements) (dests : List Destination)
    (oss : ObjectStores) (das : DatasetAttributes)
    (h : dests.filter (is_viable jr) = []) :
    ∃ l : List (WithTop ℚ × String),
      get_sorted_destinations dist jr dests oss das = Except.ok (l.map Prod.snd) ∧
      l.Perm ((dests.filter fun dest => dest.dest_status == "online").map fun dest =>
        (closest_destination dist dest oss das, dest.destination_id)) ∧
      l.Pairwise (fun a b => a.1 ≤ b.1) ∧
      ((dests.filter fun dest => dest.dest_status == "online") = [] →
        get_sorted_destinations dist jr dests oss das = Except.ok []) := by
  have hemp : (dests.filter (is_viable jr)).isEmpty = true := by
    rw [h]
    rfl
  refine ⟨((dests.filter fun dest => dest.dest_status == "online").map fun dest =>
      (closest_destination dist dest oss das, dest.destination_id)).mergeSort
        fun a b => decide (a.1 ≤ b.1), ?_, List.mergeSort_perm _ _, ?_, ?_⟩
  · simp [get_sorted_destinations, hemp]
  · exact (List.sorted_mergeSort dist_asc_trans dist_asc_total _).imp
      fun h2 => of_decide_eq_true h2
  · intro honline
    simp [get_sorted_destinations, hemp, honline]

/-- C5, instantiated on a single online but infeasible destination. -/
theorem fallback_branch_sorted_by_distance_witness :
    ∃ l : List (WithTop ℚ × String),
      get_sorted_destinations dist_zero jr_eight_cores [dest_infeasible] [] [] =
        Except.ok (l.map Prod.snd) ∧
      l.Perm (([dest_infeasible].filter fun dest => dest.dest_status == "online").map
        fun dest => (closest_destination dist_zero dest [] [], dest.destination_id)) ∧
      l.Pairwise (fun a b => a.1 ≤ b.1) ∧
      (([dest_infeasible].filter fun dest => dest.dest_status == "online") = [] →
        get_sorted_destinations dist_zero jr_eight_cores [dest_infeasible] [] [] =
          Except.ok []) :=
  fallback_branch_sorted_by_distance dist_zero jr_eight_cores [dest_infeasible] [] [] rfl

/-- C6: every identifier the ranker returns, on either branch, is the id
of an input destination whose status is `online`. -/
theorem ranked_output_only_online
    (dist : Dist) (jr : JobRequirements) (dests : List Destination)
    (oss : ObjectStores) (das : DatasetAttributes) (r : List String)
    (h : get_sorted_destinations dist jr dests oss das = Except.ok r) :
    ∀ s ∈ r, ∃ d, d ∈ dests ∧ d.dest_status = "online" ∧ d.destination_id = s := by
  intro s hs
  cases hvi : (dests.filter (is_viable jr)).isEmpty with
  | true =>
    simp only [get_sorted_destinations, hvi, if_true, Except.ok.injEq] at h
    rw [← h] at hs
    rw [List.mem_map] at hs
    obtain ⟨p, hp, rfl⟩ := hs
    rw [List.mem_mergeSort, List.mem_map] at hp
    obtain ⟨d, hd, rfl⟩ := hp
    rw [List.mem_filter] at hd
    exact ⟨d, hd.1, by simpa using hd.2, rfl⟩
  | false =>
    simp only [get_sorted_destinations, hvi, Bool.false_eq_true, if_false] at h
    cases hws : with_scores (dests.filter (is_viable jr)) with
    | error e => rw [hws] at h; cases h
    | ok scored =>
      rw [hws] at h
      simp only [Except.ok.injEq] at h
      rw [← h] at hs
      rw [List.mem_map] at hs
      obtain ⟨p, hp, rfl⟩ := hs
      rw [List.mem_mergeSort] at hp
      obtain ⟨d, hd, hR⟩ := forall₂_mem_right (with_scores_ok_forall₂ hws) p hp
      rw [List.mem_filter] at hd
      exact ⟨d, hd.1, is_viable_status hd.2, hR.2.symm⟩

/-- C6, instantiated on the fallback branch. -/
theorem ranked_output_only_online_witness :
    ∃ d, d ∈ [dest_infeasible] ∧ d.dest_status = "online" ∧
      d.destination_id = "d4" :=
  ranked_output_only_online dist_zero jr_eight_cores [dest_infeasible] [] [] ["d4"]
    (by
      have hfil : List.filter (is_viable jr_eight_cores) [dest_infeasible] = [] := rfl
      have honl : List.filter (fun dest : Destination => dest.dest_status == "online")
          [dest_infeasible] = [dest_infeasible] := rfl
      simp [get_sorted_destinations, hfil, honl, List.mergeSort_singleton]
      rfl)
    "d4" (List.mem_singleton.mpr rfl)

/-- C10: with no resolvable object store, every online destination's
distance to data is `⊤`, and the fallback returns the online
destinations' identifiers in their original input order (the ascending
sort is stable and all keys are equal). -/
theorem fallback_order_when_unresolvable
    (dist : Dist) (jr : JobRequirements) (dests : List Destination)
    (oss : ObjectStores) (das : DatasetAttributes)
    (h1 : dests.filter (is_viable jr) = [])
    (h2 : get_object_store das = [] ∨ ∀ id ∈ get_object_store das, oss.lookup id = none) :
    (∀ d ∈ dests.filter (fun dest => dest.dest_status == "online"),
      closest_destination dist d oss das = ⊤) ∧
    get_sorted_destinations dist jr dests oss das =
      Except.ok ((dests.filter fun dest => dest.dest_status == "online").map
        Destination.destination_id) := by
  have htop : ∀ d : Destination, closest_destination dist d oss das = ⊤ :=
    fun d => closest_destination_top_of_unresolvable dist d oss das h2
  refine ⟨fun d _ => htop d, ?_⟩
  have hemp : (dests.filter (is_viable jr)).isEmpty = true := by
    rw [h1]
    rfl
  have hsorted : ((dests.filter fun dest => dest.dest_status == "online").map fun dest =>
      (closest_destination dist dest oss das, dest.destination_id)).Pairwise
        (fun a b : WithTop ℚ × String => decide (a.1 ≤ b.1) = true) := by
    apply List.pairwise_of_forall_mem_list
    intro a ha b hb
    rw [List.mem_map] at ha
    obtain ⟨da, _, rfl⟩ := ha
    rw [List.mem_map] at hb
    obtain ⟨db, _, rfl⟩ := hb
    rw [htop da, htop db]
    exact decide_eq_true le_top
  simp only [get_sorted_destinations, hemp, if_true]
  rw [List.mergeSort_of_sorted hsorted, List.map_map]
  rfl

/-- C10, instantiated: no dataset attributes at all, one online but
infeasible destination. -/
theorem fallback_order_when_unresolvable_witness :
    (∀ d ∈ [dest_infeasible].filter (fun dest => dest.dest_status == "online"),
      closest_destination dist_zero d [] [] = ⊤) ∧
    get_sorted_destinations dist_zero jr_eight_cores [dest_infeasible] [] [] =
      Except.ok (([dest_infeasible].filter fun dest => dest.dest_status == "online").map
        Destination.destination_id) :=
  fallback_order_when_unresolvable dist_zero jr_eight_cores [dest_infeasible] [] []
    rfl (Or.inl rfl)

/-- C9: the haversine distance is symmetric in its two points, zero on
coincident points, and non-negative; over the real-number embedding every
value is finite by construction. -/
theorem distance_symm_identity_nonneg (lat1 lon1 lat2 lon2 : ℝ) :
    distance lat1 lon1 lat2 lon2 = distance lat2 lon2 lat1 lon1 ∧
    distance lat1 lon1 lat1 lon1 = 0 ∧
    0 ≤ distance lat1 lon1 lat2 lon2 := by
  have key : ∀ a b c e : ℝ, distance a b c e =
      12742 * Real.arcsin (Real.sqrt (0.5 - Real.cos ((c - a) * 0.017453292519943295) / 2
        + Real.cos (a * 0.017453292519943295) * Real.cos (c * 0.017453292519943295)
          * (1 - Real.cos ((e - b) * 0.017453292519943295)) / 2)) :=
    fun a b c e => rfl
  refine ⟨?_, ?_, ?_⟩
  · rw [key, key]
    have harg : (0.5 - Real.cos ((lat2 - lat1) * (0.017453292519943295 : ℝ)) / 2
        + Real.cos (lat1 * 0.017453292519943295) * Real.cos (lat2 * 0.017453292519943295)
          * (1 - Real.cos ((lon2 - lon1) * 0.017453292519943295)) / 2)
        = (0.5 - Real.cos ((lat1 - lat2) * (0.017453292519943295 : ℝ)) / 2
        + Real.cos (lat2 * 0.017453292519943295) * Real.cos (lat1 * 0.017453292519943295)
          * (1 - Real.cos ((lon1 - lon2) * 0.017453292519943295)) / 2) := by
      rw [show ((lat1 - lat2) * (0.017453292519943295 : ℝ))
            = -((lat2 - lat1) * 0.017453292519943295) from by ring,
          show ((lon1 - lon2) * (0.017453292519943295 : ℝ))
            = -((lon2 - lon1) * 0.017453292519943295) from by ring,
          Real.cos_neg, Real.cos_neg]
      ring
    rw [harg]
  · rw [key]
    rw [show ((lat1 - lat1) * (0.017453292519943295 : ℝ)) = 0 from by ring,
        show ((lon1 - lon1) * (0.017453292519943295 : ℝ)) = 0 from by ring,
        Real.cos_zero]
    have harg : ((0.5 : ℝ) - 1 / 2
        + Real.cos (lat1 * 0.017453292519943295) * Real.cos (lat1 * 0.017453292519943295)
          * (1 - 1) / 2) = 0 := by
      norm_num
    rw [harg, Real.sqrt_zero, Real.arcsin_zero, mul_zero]
  · rw [key]
    exact mul_nonneg (by norm_num) (Real.arcsin_nonneg.mpr (Real.sqrt_nonneg _))

end TPVBroker
